import Mathlib

/-!
Verification of the color-palette-generator action layer
(`src/actions/index.ts` over the tables of `db/tables.ts`).

The seven remote operations are embedded as pure functions over an explicit
`Store` (the two tables as lists of rows).  A thrown `ActionError` becomes the
`Except.error` branch of an `ErrCode` result; the zod input validation that
the framework runs before each handler is embedded as an explicit boolean
check returning `BAD_REQUEST` first.  Timestamps are abstract `Nat` ticks and
the generated uuid of an insert is an explicit `freshId` parameter, since both
are environment-supplied values the handler only copies.  The numeric contrast
columns are only ever stored and copied, never computed with, so they are
carried as `Int` (any carrier with decidable equality would do).
-/

/-- Error codes of the thrown `ActionError`s, plus `BAD_REQUEST` for the
zod input-validation rejection that the framework raises before a handler
body runs. -/
inductive ErrCode where
  | UNAUTHORIZED
  | FORBIDDEN
  | NOT_FOUND
  | BAD_REQUEST
deriving DecidableEq, Repr

/-- The caller identity found (or not) in `context.locals.user`. -/
structure User where
  id : String
deriving DecidableEq, Repr

/-- A row of the `ColorPalettes` table. -/
structure Palette where
  id : String
  userId : String
  name : String
  description : Option String
  sourceType : Option String
  sourceReference : Option String
  isFavorite : Bool
  isSystem : Bool
  createdAt : Nat
  updatedAt : Nat
deriving DecidableEq, Repr

/-- A row of the `PaletteColors` table. -/
structure PaletteColor where
  id : String
  paletteId : String
  orderIndex : Option Int
  hexValue : String
  role : Option String
  label : Option String
  contrastOnLight : Option Int
  contrastOnDark : Option Int
  createdAt : Nat
deriving DecidableEq, Repr

/-- The database: the two tables, as lists of rows. -/
structure Store where
  palettes : List Palette
  colors : List PaletteColor
deriving DecidableEq, Repr

/-- `requireUser`: produce the caller identity from the request context or
throw `UNAUTHORIZED`. -/
def requireUser (ctx : Option User) : Except ErrCode User :=
  match ctx with
  | none => .error .UNAUTHORIZED
  | some u => .ok u

/-- `getOwnedPalette`: select the palette row by id (`[palette] = ...` takes
the first match), throw `NOT_FOUND` if absent, throw `FORBIDDEN` when the
caller is not the owner and the palette is not a system palette. -/
def getOwnedPalette (s : Store) (paletteId : String) (userId : String) :
    Except ErrCode Palette :=
  match s.palettes.find? (fun p => p.id == paletteId) with
  | none => .error .NOT_FOUND
  | some palette =>
    if palette.userId != userId && !palette.isSystem then
      .error .FORBIDDEN
    else
      .ok palette

/-- Input of `createPalette` (an optional zod field is `Option`). -/
structure CreatePaletteInput where
  name : String
  description : Option String
  sourceType : Option String
  sourceReference : Option String
  isFavorite : Option Bool
deriving DecidableEq, Repr

/-- The zod schema of `createPalette`: `name` is `z.string().min(1)`. -/
def validCreatePalette (inp : CreatePaletteInput) : Bool :=
  1 ≤ inp.name.length

/-- Input of `updatePalette`. -/
structure UpdatePaletteInput where
  id : String
  name : Option String
  description : Option String
  sourceType : Option String
  sourceReference : Option String
  isFavorite : Option Bool
deriving DecidableEq, Repr

/-- The zod schema of `updatePalette`: `id` is `min(1)` and the `.refine`
requires at least one updatable field to be present. -/
def validUpdatePalette (inp : UpdatePaletteInput) : Bool :=
  1 ≤ inp.id.length &&
    (inp.name.isSome || inp.description.isSome || inp.sourceType.isSome ||
      inp.sourceReference.isSome || inp.isFavorite.isSome)

/-- Input of `createPaletteColor`. -/
structure CreatePaletteColorInput where
  paletteId : String
  orderIndex : Option Int
  hexValue : String
  role : Option String
  label : Option String
  contrastOnLight : Option Int
  contrastOnDark : Option Int
deriving DecidableEq, Repr

/-- The zod schema of `createPaletteColor`: `paletteId` and `hexValue` are
`min(1)`. -/
def validCreatePaletteColor (inp : CreatePaletteColorInput) : Bool :=
  1 ≤ inp.paletteId.length && 1 ≤ inp.hexValue.length

/-- Input of `updatePaletteColor`. -/
structure UpdatePaletteColorInput where
  id : String
  paletteId : String
  orderIndex : Option Int
  hexValue : Option String
  role : Option String
  label : Option String
  contrastOnLight : Option Int
  contrastOnDark : Option Int
deriving DecidableEq, Repr

/-- The zod schema of `updatePaletteColor`: `id` and `paletteId` are `min(1)`
and the `.refine` requires at least one updatable field. -/
def validUpdatePaletteColor (inp : UpdatePaletteColorInput) : Bool :=
  1 ≤ inp.id.length && 1 ≤ inp.paletteId.length &&
    (inp.orderIndex.isSome || inp.hexValue.isSome || inp.role.isSome ||
      inp.label.isSome || inp.contrastOnLight.isSome || inp.contrastOnDark.isSome)

/-- Input of `deletePaletteColor`. -/
structure DeletePaletteColorInput where
  id : String
  paletteId : String
deriving DecidableEq, Repr

/-- The zod schema of `deletePaletteColor`: both ids are `min(1)`. -/
def validDeletePaletteColor (inp : DeletePaletteColorInput) : Bool :=
  1 ≤ inp.id.length && 1 ≤ inp.paletteId.length

/-- The `.set({...spread})` of `updatePalette`: each field present in the
input overwrites the row's field, each absent field is left as it was, and
`updatedAt` is always set to the current time. -/
def applyPaletteUpdate (inp : UpdatePaletteInput) (now : Nat) (p : Palette) :
    Palette :=
  { p with
    name := inp.name.getD p.name
    description := inp.description.or p.description
    sourceType := inp.sourceType.or p.sourceType
    sourceReference := inp.sourceReference.or p.sourceReference
    isFavorite := inp.isFavorite.getD p.isFavorite
    updatedAt := now }

/-- The `.set({...spread})` of `updatePaletteColor`: present fields
overwrite, absent fields are kept; colors carry no modification timestamp. -/
def applyColorUpdate (inp : UpdatePaletteColorInput) (c : PaletteColor) :
    PaletteColor :=
  { c with
    orderIndex := inp.orderIndex.or c.orderIndex
    hexValue := inp.hexValue.getD c.hexValue
    role := inp.role.or c.role
    label := inp.label.or c.label
    contrastOnLight := inp.contrastOnLight.or c.contrastOnLight
    contrastOnDark := inp.contrastOnDark.or c.contrastOnDark }

/-- `createPalette`: validation, then `requireUser`, then insert a row with a
fresh id, `isSystem` forced false, `isFavorite` defaulted false, and one
timestamp used for both `createdAt` and `updatedAt`.  Returns the stored
row. -/
def createPalette (s : Store) (ctx : Option User) (inp : CreatePaletteInput)
    (freshId : String) (now : Nat) : Except ErrCode (Store × Palette) :=
  if !validCreatePalette inp then .error .BAD_REQUEST else
  match requireUser ctx with
  | .error e => .error e
  | .ok user =>
    let palette : Palette :=
      { id := freshId
        userId := user.id
        name := inp.name
        description := inp.description
        sourceType := inp.sourceType
        sourceReference := inp.sourceReference
        isFavorite := inp.isFavorite.getD false
        isSystem := false
        createdAt := now
        updatedAt := now }
    .ok ({ s with palettes := s.palettes ++ [palette] }, palette)

/-- `updatePalette`: validation, `requireUser`, `getOwnedPalette`, then
`db.update(...).set({spread}).where(eq(id))` applied to every row matching
the id; `.returning()` yields the updated row. -/
def updatePalette (s : Store) (ctx : Option User) (inp : UpdatePaletteInput)
    (now : Nat) : Except ErrCode (Store × Palette) :=
  if !validUpdatePalette inp then .error .BAD_REQUEST else
  match requireUser ctx with
  | .error e => .error e
  | .ok user =>
    match getOwnedPalette s inp.id user.id with
    | .error e => .error e
    | .ok palette =>
      .ok ({ s with
              palettes := s.palettes.map fun q =>
                if q.id == inp.id then applyPaletteUpdate inp now q else q },
           applyPaletteUpdate inp now palette)

/-- `listPalettes`: `requireUser`, then select the rows where the caller is
the owner or the palette is a system palette, intersected with
`isFavorite == true` when `favoritesOnly` (zod-defaulted to false) is set;
returns the rows and their count. -/
def listPalettes (s : Store) (ctx : Option User) (favoritesOnly : Option Bool) :
    Except ErrCode (List Palette × Nat) :=
  match requireUser ctx with
  | .error e => .error e
  | .ok user =>
    let fav := favoritesOnly.getD false
    let items := s.palettes.filter fun p =>
      (p.userId == user.id || p.isSystem) && (!fav || p.isFavorite)
    .ok (items, items.length)

/-- `createPaletteColor`: validation, `requireUser`, `getOwnedPalette` on the
parent, then insert the color row with a fresh id and creation timestamp. -/
def createPaletteColor (s : Store) (ctx : Option User)
    (inp : CreatePaletteColorInput) (freshId : String) (now : Nat) :
    Except ErrCode (Store × PaletteColor) :=
  if !validCreatePaletteColor inp then .error .BAD_REQUEST else
  match requireUser ctx with
  | .error e => .error e
  | .ok user =>
    match getOwnedPalette s inp.paletteId user.id with
    | .error e => .error e
    | .ok _ =>
      let color : PaletteColor :=
        { id := freshId
          paletteId := inp.paletteId
          orderIndex := inp.orderIndex
          hexValue := inp.hexValue
          role := inp.role
          label := inp.label
          contrastOnLight := inp.contrastOnLight
          contrastOnDark := inp.contrastOnDark
          createdAt := now }
      .ok ({ s with colors := s.colors ++ [color] }, color)

/-- `updatePaletteColor`: validation, `requireUser`, `getOwnedPalette` on the
parent, then a select of the color matching both `id` and `paletteId`
(`NOT_FOUND` when absent), then `db.update(...).where(eq(id))` — the write
itself keys on `id` alone, as in the source. -/
def updatePaletteColor (s : Store) (ctx : Option User)
    (inp : UpdatePaletteColorInput) : Except ErrCode (Store × PaletteColor) :=
  if !validUpdatePaletteColor inp then .error .BAD_REQUEST else
  match requireUser ctx with
  | .error e => .error e
  | .ok user =>
    match getOwnedPalette s inp.paletteId user.id with
    | .error e => .error e
    | .ok _ =>
      match s.colors.find? (fun c => c.id == inp.id && c.paletteId == inp.paletteId) with
      | none => .error .NOT_FOUND
      | some existing =>
        .ok ({ s with
                colors := s.colors.map fun c =>
                  if c.id == inp.id then applyColorUpdate inp c else c },
             applyColorUpdate inp existing)

/-- `deletePaletteColor`: validation, `requireUser`, `getOwnedPalette` on the
parent, then delete the rows matching both `id` and `paletteId`; the check is
post-hoc on the affected-row count, throwing `NOT_FOUND` when it is zero. -/
def deletePaletteColor (s : Store) (ctx : Option User)
    (inp : DeletePaletteColorInput) : Except ErrCode (Store × Unit) :=
  if !validDeletePaletteColor inp then .error .BAD_REQUEST else
  match requireUser ctx with
  | .error e => .error e
  | .ok user =>
    match getOwnedPalette s inp.paletteId user.id with
    | .error e => .error e
    | .ok _ =>
      let affected :=
        s.colors.countP (fun c => c.id == inp.id && c.paletteId == inp.paletteId)
      if affected == 0 then .error .NOT_FOUND
      else
        .ok ({ s with
                colors := s.colors.filter fun c =>
                  !(c.id == inp.id && c.paletteId == inp.paletteId) },
             ())

/-- `listPaletteColors`: validation (`paletteId` is `min(1)`), `requireUser`,
`getOwnedPalette` on the parent, then select every color of that palette and
return the rows and their count. -/
def listPaletteColors (s : Store) (ctx : Option User) (paletteId : String) :
    Except ErrCode (List PaletteColor × Nat) :=
  if !(1 ≤ paletteId.length) then .error .BAD_REQUEST else
  match requireUser ctx with
  | .error e => .error e
  | .ok user =>
    match getOwnedPalette s paletteId user.id with
    | .error e => .error e
    | .ok _ =>
      let items := s.colors.filter fun c => c.paletteId == paletteId
      .ok (items, items.length)

/-- Whether an operation returned successfully. -/
def exceptIsOk {ε α : Type} : Except ε α → Bool
  | .ok _ => true
  | .error _ => false

/-- The store after an operation: the new store on success; on a thrown
error the mutation was never reached, so the store is the one passed in. -/
def resultingStore {α : Type} (s : Store) : Except ErrCode (Store × α) → Store
  | .ok (s', _) => s'
  | .error _ => s

/-- The frame of a palette row that no public operation may change. -/
def paletteFrame (p : Palette) : String × String × Bool × Nat :=
  (p.id, p.userId, p.isSystem, p.createdAt)

/-- Every field of a palette row except `updatedAt`. -/
def paletteContent (p : Palette) :
    String × String × String × Option String × Option String × Option String × Bool × Bool × Nat :=
  (p.id, p.userId, p.name, p.description, p.sourceType, p.sourceReference,
    p.isFavorite, p.isSystem, p.createdAt)

/-- The frame of a color row that `updatePaletteColor` may not change. -/
def colorFrame (c : PaletteColor) : String × String × Nat :=
  (c.id, c.paletteId, c.createdAt)

/-! ### Concrete fixtures used by witnesses and counterexamples -/

/-- A plain user-owned palette. -/
def samplePaletteA : Palette :=
  { id := "p1", userId := "alice", name := "Sunset", description := none
    sourceType := none, sourceReference := none, isFavorite := false
    isSystem := false, createdAt := 0, updatedAt := 0 }

/-- A system-shared palette (pre-seeded; no user operation creates one). -/
def sampleSystemPalette : Palette :=
  { id := "p2", userId := "alice", name := "Curated", description := none
    sourceType := none, sourceReference := none, isFavorite := true
    isSystem := true, createdAt := 0, updatedAt := 0 }

/-- A favorited palette owned by alice. -/
def sampleFavPalette : Palette :=
  { id := "p3", userId := "alice", name := "Dashboard", description := none
    sourceType := none, sourceReference := none, isFavorite := true
    isSystem := false, createdAt := 0, updatedAt := 0 }

/-- A color row under palette `p1`. -/
def sampleColor1 : PaletteColor :=
  { id := "c1", paletteId := "p1", orderIndex := some 0, hexValue := "#FF5733"
    role := none, label := none, contrastOnLight := none, contrastOnDark := none
    createdAt := 0 }

/-- A color row under palette `p3`. -/
def sampleColor2 : PaletteColor :=
  { id := "c2", paletteId := "p3", orderIndex := none, hexValue := "#00FF00"
    role := some "accent", label := none, contrastOnLight := none
    contrastOnDark := none, createdAt := 0 }

/-- A small store exercising every ownership case. -/
def sampleStore : Store :=
  { palettes := [samplePaletteA, sampleSystemPalette, sampleFavPalette]
    colors := [sampleColor1, sampleColor2] }

/-! ### Theorems -/

/-- C1: `getOwnedPalette(paletteId, callerId)` fails `NOT_FOUND` when no
palette row has id `paletteId`; fails `FORBIDDEN` when the palette's `userId`
differs from the caller and `isSystem` is false; otherwise returns the
palette record. -/
theorem c1_getOwnedPalette_cases (s : Store) (pid uid : String) :
    (s.palettes.find? (fun p => p.id == pid) = none →
      getOwnedPalette s pid uid = .error .NOT_FOUND) ∧
    (∀ p, s.palettes.find? (fun p => p.id == pid) = some p →
      p.userId ≠ uid → p.isSystem = false →
      getOwnedPalette s pid uid = .error .FORBIDDEN) ∧
    (∀ p, s.palettes.find? (fun p => p.id == pid) = some p →
      (p.userId = uid ∨ p.isSystem = true) →
      getOwnedPalette s pid uid = .ok p) := by
  refine ⟨fun h => ?_, fun p hp hne hsys => ?_, fun p hp hok => ?_⟩
  · simp [getOwnedPalette, h]
  · simp [getOwnedPalette, hp, hsys, hne]
  · rcases hok with h | h <;> simp [getOwnedPalette, hp, h]

/-- Witness for C1 at a concrete store: a missing id, a foreign non-system
palette, and an owned palette. -/
theorem c1_witness :
    getOwnedPalette sampleStore "p9" "alice" = .error .NOT_FOUND ∧
    getOwnedPalette sampleStore "p1" "bob" = .error .FORBIDDEN ∧
    getOwnedPalette sampleStore "p1" "alice" = .ok samplePaletteA :=
  ⟨(c1_getOwnedPalette_cases sampleStore "p9" "alice").1 (by decide),
   (c1_getOwnedPalette_cases sampleStore "p1" "bob").2.1 samplePaletteA
     (by decide) (by decide) (by decide),
   (c1_getOwnedPalette_cases sampleStore "p1" "alice").2.2 samplePaletteA
     (by decide) (Or.inl (by decide))⟩

/-- C4: every successful `createPalette` call stores and returns a record
with `isSystem = false`, `isFavorite` the supplied value or false when
absent, the freshly generated id, and `createdAt = updatedAt`. -/
theorem c4_createPalette_fresh_record (s : Store) (ctx : Option User)
    (inp : CreatePaletteInput) (freshId : String) (now : Nat)
    (s' : Store) (p : Palette)
    (h : createPalette s ctx inp freshId now = .ok (s', p)) :
    p.isSystem = false ∧
    p.isFavorite = inp.isFavorite.getD false ∧
    p.id = freshId ∧
    p.createdAt = p.updatedAt ∧
    s'.palettes = s.palettes ++ [p] ∧
    s'.colors = s.colors := by
  unfold createPalette at h
  split at h
  · exact absurd h (by simp)
  · cases ctx with
    | none => simp [requireUser] at h
    | some u =>
      simp only [requireUser, Except.ok.injEq, Prod.mk.injEq] at h
      obtain ⟨hs', hp⟩ := h
      subst hs' hp
      exact ⟨rfl, rfl, rfl, rfl, rfl, rfl⟩

/-- The input of the witness create call for C4. -/
def mintInput : CreatePaletteInput :=
  { name := "Mint", description := none, sourceType := none
    sourceReference := none, isFavorite := none }

/-- The row the witness create call for C4 stores. -/
def mintPalette : Palette :=
  { id := "p9", userId := "alice", name := "Mint", description := none
    sourceType := none, sourceReference := none, isFavorite := false
    isSystem := false, createdAt := 7, updatedAt := 7 }

/-- The store after the witness create call for C4. -/
def mintStore : Store :=
  { palettes := sampleStore.palettes ++ [mintPalette]
    colors := sampleStore.colors }

/-- Witness for C4: a concrete successful create, its success hypothesis
discharged by evaluation. -/
theorem c4_witness :
    mintPalette.isSystem = false ∧
    mintPalette.isFavorite = mintInput.isFavorite.getD false ∧
    mintPalette.id = "p9" ∧
    mintPalette.createdAt = mintPalette.updatedAt ∧
    mintStore.palettes = sampleStore.palettes ++ [mintPalette] ∧
    mintStore.colors = sampleStore.colors :=
  c4_createPalette_fresh_record sampleStore (some ⟨"alice"⟩) mintInput "p9" 7
    mintStore mintPalette rfl

/-- C6: for each of the seven operations, a request context without a caller
identity fails with `UNAUTHORIZED` (for any store, so the result depends on
no store read, and no ownership check is reached). -/
theorem c6_no_identity_unauthorized (s : Store)
    (i1 : CreatePaletteInput) (i2 : UpdatePaletteInput) (fav : Option Bool)
    (i3 : CreatePaletteColorInput) (i4 : UpdatePaletteColorInput)
    (i5 : DeletePaletteColorInput) (pid fid : String) (now : Nat)
    (h1 : validCreatePalette i1 = true) (h2 : validUpdatePalette i2 = true)
    (h3 : validCreatePaletteColor i3 = true)
    (h4 : validUpdatePaletteColor i4 = true)
    (h5 : validDeletePaletteColor i5 = true) (h6 : 1 ≤ pid.length) :
    createPalette s none i1 fid now = .error .UNAUTHORIZED ∧
    updatePalette s none i2 now = .error .UNAUTHORIZED ∧
    listPalettes s none fav = .error .UNAUTHORIZED ∧
    createPaletteColor s none i3 fid now = .error .UNAUTHORIZED ∧
    updatePaletteColor s none i4 = .error .UNAUTHORIZED ∧
    deletePaletteColor s none i5 = .error .UNAUTHORIZED ∧
    listPaletteColors s none pid = .error .UNAUTHORIZED := by
  refine ⟨?_, ?_, ?_, ?_, ?_, ?_, ?_⟩
  · simp [createPalette, requireUser, h1]
  · simp [updatePalette, requireUser, h2]
  · simp [listPalettes, requireUser]
  · simp [createPaletteColor, requireUser, h3]
  · simp [updatePaletteColor, requireUser, h4]
  · simp [deletePaletteColor, requireUser, h5]
  · simp [listPaletteColors, requireUser, h6]

/-- Witness for C6: concrete valid inputs with no identity. -/
theorem c6_witness :
    createPalette sampleStore none
      { name := "x", description := none, sourceType := none
        sourceReference := none, isFavorite := none } "f" 1
      = .error .UNAUTHORIZED ∧
    updatePalette sampleStore none
      { id := "p1", name := some "y", description := none, sourceType := none
        sourceReference := none, isFavorite := none } 1
      = .error .UNAUTHORIZED ∧
    listPalettes sampleStore none none = .error .UNAUTHORIZED ∧
    createPaletteColor sampleStore none
      { paletteId := "p1", orderIndex := none, hexValue := "#000000"
        role := none, label := none, contrastOnLight := none
        contrastOnDark := none } "f" 1
      = .error .UNAUTHORIZED ∧
    updatePaletteColor sampleStore none
      { id := "c1", paletteId := "p1", orderIndex := none
        hexValue := some "#111111", role := none, label := none
        contrastOnLight := none, contrastOnDark := none }
      = .error .UNAUTHORIZED ∧
    deletePaletteColor sampleStore none { id := "c1", paletteId := "p1" }
      = .error .UNAUTHORIZED ∧
    listPaletteColors sampleStore none "p1" = .error .UNAUTHORIZED :=
  c6_no_identity_unauthorized sampleStore _ _ none _ _ _ "p1" "f" 1
    (by decide) (by decide) (by decide) (by decide) (by decide) (by decide)

/-- C7: for an authenticated caller, `listPalettes` returns exactly the
palettes owned by the caller or flagged system, restricted to favorites when
the flag is set, and the returned total is the number of returned items. -/
theorem c7_listPalettes_filter (s : Store) (u : User) (fav : Option Bool) :
    ∃ items total,
      listPalettes s (some u) fav = .ok (items, total) ∧
      total = items.length ∧
      ∀ p : Palette, p ∈ items ↔
        p ∈ s.palettes ∧ (p.userId = u.id ∨ p.isSystem = true) ∧
          (fav.getD false = true → p.isFavorite = true) := by
  refine ⟨_, _, rfl, rfl, fun p => ?_⟩
  simp only [listPalettes, requireUser, List.mem_filter]
  constructor
  · rintro ⟨hm, hb⟩
    refine ⟨hm, ?_, ?_⟩
    · cases hu : p.userId == u.id with
      | true => exact Or.inl (by simpa using hu)
      | false =>
        cases hsys : p.isSystem with
        | true => exact Or.inr rfl
        | false => simp [hu, hsys] at hb
    · intro hfav
      cases hfv : p.isFavorite with
      | true => rfl
      | false => simp [hfav, hfv] at hb
  · rintro ⟨hm, hown, hfav⟩
    refine ⟨hm, ?_⟩
    have h1 : (p.userId == u.id || p.isSystem) = true := by
      rcases hown with h | h <;> simp [h]
    cases hf : fav.getD false with
    | false => simp [h1, hf]
    | true => simp [h1, hf, hfav hf]

/-! ### Helper lemmas shared between claims -/

theorem option_getD_getD {α : Type} (o : Option α) (x : α) :
    o.getD (o.getD x) = o.getD x := by
  cases o <;> rfl

theorem option_or_or {α : Type} (o x : Option α) :
    o.or (o.or x) = o.or x := by
  cases o <;> rfl

/-- Success of `getOwnedPalette` pins down the row found and the passed
ownership check. -/
theorem getOwnedPalette_ok_elim (s : Store) (pid uid : String) (p : Palette)
    (h : getOwnedPalette s pid uid = .ok p) :
    s.palettes.find? (fun q => q.id == pid) = some p ∧
    (p.userId != uid && !p.isSystem) = false := by
  unfold getOwnedPalette at h
  split at h
  · exact absurd h (by simp)
  · rename_i q hfq
    split at h
    · exact absurd h (by simp)
    · rename_i hc
      injection h with h
      subst h
      exact ⟨hfq, by simpa using hc⟩

theorem getOwnedPalette_ok_intro (s : Store) (pid uid : String) (p : Palette)
    (hf : s.palettes.find? (fun q => q.id == pid) = some p)
    (hc : (p.userId != uid && !p.isSystem) = false) :
    getOwnedPalette s pid uid = .ok p := by
  unfold getOwnedPalette
  rw [hf]
  simp [hc]

/-- `find?` commutes with a map that does not change the predicate's
verdict. -/
theorem find?_map_preserve {α : Type} (l : List α) (f : α → α)
    (pred : α → Bool) (hf : ∀ a, pred (f a) = pred a) :
    (l.map f).find? pred = (l.find? pred).map f := by
  rw [List.find?_map]
  have hpf : pred ∘ f = pred := funext hf
  rw [hpf]

/-- Success of `updatePalette` pins down the caller, the row found by the
ownership resolver, the new store and the returned row. -/
theorem updatePalette_ok_elim (s : Store) (ctx : Option User)
    (inp : UpdatePaletteInput) (now : Nat) (s' : Store) (r : Palette)
    (h : updatePalette s ctx inp now = .ok (s', r)) :
    validUpdatePalette inp = true ∧
    ∃ u p0, ctx = some u ∧
      getOwnedPalette s inp.id u.id = .ok p0 ∧
      s' = { s with palettes := s.palettes.map fun q =>
              if q.id == inp.id then applyPaletteUpdate inp now q else q } ∧
      r = applyPaletteUpdate inp now p0 := by
  unfold updatePalette at h
  split at h
  · exact absurd h (by simp)
  · rename_i hv
    have hvt : validUpdatePalette inp = true := by
      revert hv; cases validUpdatePalette inp <;> simp
    cases ctx with
    | none => simp [requireUser] at h
    | some u =>
      simp only [requireUser] at h
      cases hg : getOwnedPalette s inp.id u.id with
      | error e => rw [hg] at h; exact absurd h (by simp)
      | ok p0 =>
        rw [hg] at h
        simp only [Except.ok.injEq, Prod.mk.injEq] at h
        exact ⟨hvt, u, p0, rfl, hg, h.1.symm, h.2.symm⟩

theorem updatePalette_ok_intro (s : Store) (u : User)
    (inp : UpdatePaletteInput) (now : Nat) (p0 : Palette)
    (hv : validUpdatePalette inp = true)
    (hg : getOwnedPalette s inp.id u.id = .ok p0) :
    updatePalette s (some u) inp now =
      .ok ({ s with palettes := s.palettes.map fun q =>
              if q.id == inp.id then applyPaletteUpdate inp now q else q },
           applyPaletteUpdate inp now p0) := by
  simp [updatePalette, hv, requireUser, hg]

/-- Success of `updatePaletteColor` pins down the caller, the parent check,
the row found, the new store and the returned row. -/
theorem updatePaletteColor_ok_elim (s : Store) (ctx : Option User)
    (inp : UpdatePaletteColorInput) (s' : Store) (r : PaletteColor)
    (h : updatePaletteColor s ctx inp = .ok (s', r)) :
    validUpdatePaletteColor inp = true ∧
    ∃ u pal ex, ctx = some u ∧
      getOwnedPalette s inp.paletteId u.id = .ok pal ∧
      s.colors.find? (fun c => c.id == inp.id && c.paletteId == inp.paletteId)
        = some ex ∧
      s' = { s with colors := s.colors.map fun c =>
              if c.id == inp.id then applyColorUpdate inp c else c } ∧
      r = applyColorUpdate inp ex := by
  unfold updatePaletteColor at h
  split at h
  · exact absurd h (by simp)
  · rename_i hv
    have hvt : validUpdatePaletteColor inp = true := by
      revert hv; cases validUpdatePaletteColor inp <;> simp
    cases ctx with
    | none => simp [requireUser] at h
    | some u =>
      simp only [requireUser] at h
      cases hg : getOwnedPalette s inp.paletteId u.id with
      | error e => rw [hg] at h; exact absurd h (by simp)
      | ok pal =>
        rw [hg] at h
        cases hfind : s.colors.find?
            (fun c => c.id == inp.id && c.paletteId == inp.paletteId) with
        | none => rw [hfind] at h; exact absurd h (by simp)
        | some ex =>
          rw [hfind] at h
          simp only [Except.ok.injEq, Prod.mk.injEq] at h
          refine ⟨hvt, u, pal, ex, ?_, ?_, ?_, ?_, ?_⟩
          · rfl
          · exact hg
          · exact hfind ▸ rfl
          · exact h.1.symm
          · exact h.2.symm

theorem updatePaletteColor_ok_intro (s : Store) (u : User)
    (inp : UpdatePaletteColorInput) (pal : Palette) (ex : PaletteColor)
    (hv : validUpdatePaletteColor inp = true)
    (hg : getOwnedPalette s inp.paletteId u.id = .ok pal)
    (hfind : s.colors.find?
      (fun c => c.id == inp.id && c.paletteId == inp.paletteId) = some ex) :
    updatePaletteColor s (some u) inp =
      .ok ({ s with colors := s.colors.map fun c =>
              if c.id == inp.id then applyColorUpdate inp c else c },
           applyColorUpdate inp ex) := by
  simp [updatePaletteColor, hv, requireUser, hg, hfind]

/-- A concrete update request against the system palette `p2`. -/
def hijackInput : UpdatePaletteInput :=
  { id := "p2", name := some "Hijacked", description := none
    sourceType := none, sourceReference := none, isFavorite := none }

/-- C2 counterexample: caller `bob` is not the stored owner (`alice`) of
palette `p2`, yet `updatePalette` succeeds, because `p2` is a system palette
and `getOwnedPalette` lets any caller through for system palettes.  So "a
palette is mutated only by its owner" fails as stated. -/
theorem c2_counterexample :
    sampleStore.palettes.find? (fun p => p.id == hijackInput.id)
      = some sampleSystemPalette ∧
    sampleSystemPalette.userId ≠ "bob" ∧
    exceptIsOk (updatePalette sampleStore (some ⟨"bob"⟩) hijackInput 5) = true ∧
    (resultingStore sampleStore
      (updatePalette sampleStore (some ⟨"bob"⟩) hijackInput 5)).palettes.find?
        (fun p => p.id == "p2") ≠ some sampleSystemPalette := by
  refine ⟨by decide, by decide, by decide, by decide⟩

/-- C2 amended: a non-system palette is mutated only by its owner — every
`updatePalette` call whose caller differs from the stored `userId` of the
addressed palette fails (with `FORBIDDEN` once past input validation) when
that palette's `isSystem` flag is false, and the store is unchanged. -/
theorem c2_update_owner_only (s : Store) (u : User) (inp : UpdatePaletteInput)
    (now : Nat) (p : Palette)
    (hp : s.palettes.find? (fun q => q.id == inp.id) = some p)
    (hne : p.userId ≠ u.id) (hsys : p.isSystem = false) :
    exceptIsOk (updatePalette s (some u) inp now) = false ∧
    resultingStore s (updatePalette s (some u) inp now) = s := by
  have hforb : getOwnedPalette s inp.id u.id = .error .FORBIDDEN := by
    simp [getOwnedPalette, hp, hne, hsys]
  cases hv : validUpdatePalette inp with
  | false => simp [updatePalette, hv, exceptIsOk, resultingStore]
  | true => simp [updatePalette, hv, requireUser, hforb, exceptIsOk, resultingStore]

/-- Witness for the amended C2: `bob` cannot touch `alice`'s palette `p1`. -/
theorem c2_witness :
    exceptIsOk (updatePalette sampleStore (some ⟨"bob"⟩)
      { id := "p1", name := some "Stolen", description := none
        sourceType := none, sourceReference := none, isFavorite := none } 5)
      = false ∧
    resultingStore sampleStore (updatePalette sampleStore (some ⟨"bob"⟩)
      { id := "p1", name := some "Stolen", description := none
        sourceType := none, sourceReference := none, isFavorite := none } 5)
      = sampleStore :=
  c2_update_owner_only sampleStore ⟨"bob"⟩ _ 5 samplePaletteA
    (by decide) (by decide) (by decide)

/-- C5: `updatePalette` rejects before any storage access when none of
{name, description, sourceType, sourceReference, isFavorite} is present
(same validation error for every store and caller); on success it applies
exactly the present fields, keeps every absent field at the prior row's
value, and sets `updatedAt` to the current time. -/
theorem c5_updatePalette_partial_semantics :
    (∀ (s : Store) (ctx : Option User) (inp : UpdatePaletteInput) (now : Nat),
      inp.name = none → inp.description = none → inp.sourceType = none →
      inp.sourceReference = none → inp.isFavorite = none →
      updatePalette s ctx inp now = .error .BAD_REQUEST) ∧
    (∀ (s : Store) (ctx : Option User) (inp : UpdatePaletteInput) (now : Nat)
        (s' : Store) (r : Palette),
      updatePalette s ctx inp now = .ok (s', r) →
      ∃ p, s.palettes.find? (fun q => q.id == inp.id) = some p ∧
        (∀ v, inp.name = some v → r.name = v) ∧
        (inp.name = none → r.name = p.name) ∧
        (∀ v, inp.description = some v → r.description = some v) ∧
        (inp.description = none → r.description = p.description) ∧
        (∀ v, inp.sourceType = some v → r.sourceType = some v) ∧
        (inp.sourceType = none → r.sourceType = p.sourceType) ∧
        (∀ v, inp.sourceReference = some v → r.sourceReference = some v) ∧
        (inp.sourceReference = none → r.sourceReference = p.sourceReference) ∧
        (∀ v, inp.isFavorite = some v → r.isFavorite = v) ∧
        (inp.isFavorite = none → r.isFavorite = p.isFavorite) ∧
        r.updatedAt = now) := by
  constructor
  · intro s ctx inp now h1 h2 h3 h4 h5
    have hv : validUpdatePalette inp = false := by
      simp [validUpdatePalette, h1, h2, h3, h4, h5]
    simp [updatePalette, hv]
  · intro s ctx inp now s' r h
    obtain ⟨hv, u, p0, hctx, hg, hs', hr⟩ := updatePalette_ok_elim s ctx inp now s' r h
    obtain ⟨hfind, -⟩ := getOwnedPalette_ok_elim s inp.id u.id p0 hg
    subst hr
    refine ⟨p0, hfind, ?_, ?_, ?_, ?_, ?_, ?_, ?_, ?_, ?_, ?_, rfl⟩ <;>
      first
        | (intro v hv'; simp [applyPaletteUpdate, hv'])
        | (intro hv'; simp [applyPaletteUpdate, hv'])

/-- The favorite-toggle update used by the C5 witness. -/
def favToggleInput : UpdatePaletteInput :=
  { id := "p1", name := none, description := none, sourceType := none
    sourceReference := none, isFavorite := some true }

/-- `samplePaletteA` after the favorite-toggle update at time 9. -/
def favToggledPalette : Palette :=
  { id := "p1", userId := "alice", name := "Sunset", description := none
    sourceType := none, sourceReference := none, isFavorite := true
    isSystem := false, createdAt := 0, updatedAt := 9 }

/-- The store after the favorite-toggle update. -/
def favToggledStore : Store :=
  { palettes := [favToggledPalette, sampleSystemPalette, sampleFavPalette]
    colors := sampleStore.colors }

/-- Witness for C5: the empty update on `p1` is rejected, and a concrete
favorite-toggle update yields `isFavorite = true` with the new timestamp. -/
theorem c5_witness :
    updatePalette sampleStore (some ⟨"alice"⟩)
      { id := "p1", name := none, description := none, sourceType := none
        sourceReference := none, isFavorite := none } 9
      = .error .BAD_REQUEST ∧
    favToggledPalette.isFavorite = true ∧
    favToggledPalette.updatedAt = 9 := by
  obtain ⟨p, -, -, -, -, -, -, -, -, -, hfav, -, hts⟩ :=
    c5_updatePalette_partial_semantics.2 sampleStore (some ⟨"alice"⟩)
      favToggleInput 9 favToggledStore favToggledPalette rfl
  exact ⟨c5_updatePalette_partial_semantics.1 sampleStore (some ⟨"alice"⟩)
      _ 9 rfl rfl rfl rfl rfl, hfav true rfl, hts⟩

/-- C3: when the supplied `paletteId` names a palette the caller may act on,
but no color row matches both the supplied color id and that `paletteId`
(the row is absent or its stored parent differs), `updatePaletteColor` and
`deletePaletteColor` fail with `NOT_FOUND` and the store is unchanged. -/
theorem c3_color_wrong_parent_not_found (s : Store) (u : User)
    (iu : UpdatePaletteColorInput) (idl : DeletePaletteColorInput)
    (pal pal' : Palette)
    (hvu : validUpdatePaletteColor iu = true)
    (hvd : validDeletePaletteColor idl = true)
    (hgu : getOwnedPalette s iu.paletteId u.id = .ok pal)
    (hgd : getOwnedPalette s idl.paletteId u.id = .ok pal')
    (hmu : ∀ c ∈ s.colors, ¬(c.id = iu.id ∧ c.paletteId = iu.paletteId))
    (hmd : ∀ c ∈ s.colors, ¬(c.id = idl.id ∧ c.paletteId = idl.paletteId)) :
    updatePaletteColor s (some u) iu = .error .NOT_FOUND ∧
    deletePaletteColor s (some u) idl = .error .NOT_FOUND ∧
    resultingStore s (updatePaletteColor s (some u) iu) = s ∧
    resultingStore s (deletePaletteColor s (some u) idl) = s := by
  have hfindu : s.colors.find?
      (fun c => c.id == iu.id && c.paletteId == iu.paletteId) = none := by
    rw [List.find?_eq_none]
    intro c hc
    have := hmu c hc
    simp only [Bool.and_eq_true, beq_iff_eq]
    tauto
  have hcountd : s.colors.countP
      (fun c => c.id == idl.id && c.paletteId == idl.paletteId) = 0 := by
    rw [List.countP_eq_zero]
    intro c hc
    have := hmd c hc
    simp only [Bool.and_eq_true, beq_iff_eq]
    tauto
  have h1 : updatePaletteColor s (some u) iu = .error .NOT_FOUND := by
    simp [updatePaletteColor, hvu, requireUser, hgu, hfindu]
  have h2 : deletePaletteColor s (some u) idl = .error .NOT_FOUND := by
    simp [deletePaletteColor, hvd, requireUser, hgd, hcountd]
  exact ⟨h1, h2, by rw [h1]; rfl, by rw [h2]; rfl⟩

/-- Witness for C3: palette `p3` is owned by alice, but color `c1` belongs
to palette `p1`, so updating or deleting `c1` under `p3` is `NOT_FOUND`. -/
theorem c3_witness :
    updatePaletteColor sampleStore (some ⟨"alice"⟩)
      { id := "c1", paletteId := "p3", orderIndex := none
        hexValue := some "#123456", role := none, label := none
        contrastOnLight := none, contrastOnDark := none }
      = .error .NOT_FOUND ∧
    deletePaletteColor sampleStore (some ⟨"alice"⟩)
      { id := "c1", paletteId := "p3" } = .error .NOT_FOUND := by
  have h := c3_color_wrong_parent_not_found sampleStore ⟨"alice"⟩
    { id := "c1", paletteId := "p3", orderIndex := none
      hexValue := some "#123456", role := none, label := none
      contrastOnLight := none, contrastOnDark := none }
    { id := "c1", paletteId := "p3" }
    sampleFavPalette sampleFavPalette
    (by decide) (by decide) rfl rfl (by decide) (by decide)
  exact ⟨h.1, h.2.1⟩

/-- C9: a successful `updatePaletteColor` leaves `id`, `paletteId` and
`createdAt` of every color row unchanged (so the returned row's parent is
the supplied palette and a color is never moved between palettes), and the
palettes table is untouched. -/
theorem c9_updatePaletteColor_frame (s : Store) (ctx : Option User)
    (inp : UpdatePaletteColorInput) (s' : Store) (r : PaletteColor)
    (h : updatePaletteColor s ctx inp = .ok (s', r)) :
    s'.colors.map colorFrame = s.colors.map colorFrame ∧
    s'.palettes = s.palettes ∧
    r.id = inp.id ∧
    r.paletteId = inp.paletteId ∧
    ∃ c0, s.colors.find?
        (fun c => c.id == inp.id && c.paletteId == inp.paletteId) = some c0 ∧
      colorFrame r = colorFrame c0 := by
  obtain ⟨hv, u, pal, ex, hctx, hg, hfind, hs', hr⟩ :=
    updatePaletteColor_ok_elim s ctx inp s' r h
  have hex := List.find?_some hfind
  simp only [Bool.and_eq_true, beq_iff_eq] at hex
  have hexid : ex.id = inp.id := hex.1
  have hexpid : ex.paletteId = inp.paletteId := hex.2
  subst hs' hr
  refine ⟨?_, rfl, ?_, ?_, ex, hfind, rfl⟩
  · rw [List.map_map]
    refine List.map_congr_left fun c _ => ?_
    by_cases hc : (c.id == inp.id) = true
    · show colorFrame (if c.id == inp.id then applyColorUpdate inp c else c)
        = colorFrame c
      rw [if_pos hc]
      rfl
    · show colorFrame (if c.id == inp.id then applyColorUpdate inp c else c)
        = colorFrame c
      rw [if_neg hc]
  · show (applyColorUpdate inp ex).id = inp.id
    simpa [applyColorUpdate] using hexid
  · show (applyColorUpdate inp ex).paletteId = inp.paletteId
    simpa [applyColorUpdate] using hexpid

/-- The hex recolor of `c1` used by the C9 witness. -/
def recolorInput : UpdatePaletteColorInput :=
  { id := "c1", paletteId := "p1", orderIndex := none
    hexValue := some "#123456", role := none, label := none
    contrastOnLight := none, contrastOnDark := none }

/-- `sampleColor1` after the hex recolor. -/
def recoloredColor : PaletteColor :=
  { id := "c1", paletteId := "p1", orderIndex := some 0, hexValue := "#123456"
    role := none, label := none, contrastOnLight := none
    contrastOnDark := none, createdAt := 0 }

/-- The store after the hex recolor. -/
def recoloredStore : Store :=
  { palettes := sampleStore.palettes, colors := [recoloredColor, sampleColor2] }

/-- Witness for C9: a concrete recolor of `c1`, its success hypothesis
discharged by evaluation. -/
theorem c9_witness :
    recoloredStore.colors.map colorFrame = sampleStore.colors.map colorFrame ∧
    recoloredStore.palettes = sampleStore.palettes ∧
    recoloredColor.id = "c1" ∧
    recoloredColor.paletteId = "p1" ∧
    ∃ c0, sampleStore.colors.find?
        (fun c => c.id == recolorInput.id && c.paletteId == recolorInput.paletteId)
          = some c0 ∧
      colorFrame recoloredColor = colorFrame c0 :=
  c9_updatePaletteColor_frame sampleStore (some ⟨"alice"⟩) recolorInput
    recoloredStore recoloredColor rfl

/-- C10: a successful `updatePalette` leaves `id`, `userId`, `isSystem` and
`createdAt` of every palette row unchanged (ownership is never transferred
and `isSystem` is never raised) and touches no color row; `createPalette`
only appends a row, with `isSystem` forced false. -/
theorem c10_palette_frame :
    (∀ (s : Store) (ctx : Option User) (inp : UpdatePaletteInput) (now : Nat)
        (s' : Store) (r : Palette),
      updatePalette s ctx inp now = .ok (s', r) →
      s'.palettes.map paletteFrame = s.palettes.map paletteFrame ∧
      s'.colors = s.colors) ∧
    (∀ (s : Store) (ctx : Option User) (inp : CreatePaletteInput)
        (freshId : String) (now : Nat) (s' : Store) (r : Palette),
      createPalette s ctx inp freshId now = .ok (s', r) →
      s'.palettes = s.palettes ++ [r] ∧ r.isSystem = false) := by
  constructor
  · intro s ctx inp now s' r h
    obtain ⟨hv, u, p0, hctx, hg, hs', hr⟩ := updatePalette_ok_elim s ctx inp now s' r h
    subst hs'
    refine ⟨?_, rfl⟩
    rw [List.map_map]
    refine List.map_congr_left fun q _ => ?_
    by_cases hq : (q.id == inp.id) = true
    · show paletteFrame (if q.id == inp.id then applyPaletteUpdate inp now q else q)
        = paletteFrame q
      rw [if_pos hq]
      rfl
    · show paletteFrame (if q.id == inp.id then applyPaletteUpdate inp now q else q)
        = paletteFrame q
      rw [if_neg hq]
  · intro s ctx inp freshId now s' r h
    obtain ⟨hsys, -, -, -, hpal, -⟩ :=
      c4_createPalette_fresh_record s ctx inp freshId now s' r h
    exact ⟨hpal, hsys⟩

/-- Witness for C10: the concrete favorite-toggle update and create calls,
their success hypotheses discharged by evaluation. -/
theorem c10_witness :
    favToggledStore.palettes.map paletteFrame
      = sampleStore.palettes.map paletteFrame ∧
    favToggledStore.colors = sampleStore.colors ∧
    mintStore.palettes = sampleStore.palettes ++ [mintPalette] ∧
    mintPalette.isSystem = false := by
  obtain ⟨h1, h2⟩ := c10_palette_frame.1 sampleStore (some ⟨"alice"⟩)
    favToggleInput 9 favToggledStore favToggledPalette rfl
  obtain ⟨h3, h4⟩ := c10_palette_frame.2 sampleStore (some ⟨"alice"⟩)
    mintInput "p9" 7 mintStore mintPalette rfl
  exact ⟨h1, h2, h3, h4⟩

/-- Re-applying the same palette field set is absorbing (up to the new
timestamp). -/
theorem applyPaletteUpdate_idem (inp : UpdatePaletteInput) (now1 now2 : Nat)
    (p : Palette) :
    applyPaletteUpdate inp now2 (applyPaletteUpdate inp now1 p)
      = applyPaletteUpdate inp now2 p := by
  simp [applyPaletteUpdate, option_getD_getD, option_or_or]

/-- Re-applying the same color field set is absorbing. -/
theorem applyColorUpdate_idem (inp : UpdatePaletteColorInput)
    (c : PaletteColor) :
    applyColorUpdate inp (applyColorUpdate inp c) = applyColorUpdate inp c := by
  simp [applyColorUpdate, option_getD_getD, option_or_or]

/-- The non-timestamp content of an updated palette row does not depend on
the update time. -/
theorem paletteContent_apply_time (inp : UpdatePaletteInput)
    (now1 now2 : Nat) (p : Palette) :
    paletteContent (applyPaletteUpdate inp now2 p)
      = paletteContent (applyPaletteUpdate inp now1 p) := rfl

/-- Re-running the row-level palette write over an already-updated table
changes no field other than the timestamp. -/
theorem map_paletteContent_update_twice (inp : UpdatePaletteInput)
    (now1 now2 : Nat) (l : List Palette) :
    (((l.map fun q => if q.id == inp.id then applyPaletteUpdate inp now1 q else q).map
        fun q => if q.id == inp.id then applyPaletteUpdate inp now2 q else q).map
      paletteContent)
    = ((l.map fun q => if q.id == inp.id then applyPaletteUpdate inp now1 q else q).map
        paletteContent) := by
  induction l with
  | nil => rfl
  | cons a l ih =>
    simp only [List.map_cons, ih]
    congr 1
    by_cases ha : (a.id == inp.id) = true
    · rw [if_pos ha]
      have ha' : ((applyPaletteUpdate inp now1 a).id == inp.id) = true := ha
      rw [if_pos ha', applyPaletteUpdate_idem]
      exact paletteContent_apply_time inp now1 now2 a
    · rw [if_neg ha]
      rw [if_neg ha]

/-- Re-running the row-level color write over an already-updated table is
the identity. -/
theorem map_colorUpdate_twice (inp : UpdatePaletteColorInput)
    (l : List PaletteColor) :
    ((l.map fun c => if c.id == inp.id then applyColorUpdate inp c else c).map
        fun c => if c.id == inp.id then applyColorUpdate inp c else c)
    = l.map fun c => if c.id == inp.id then applyColorUpdate inp c else c := by
  induction l with
  | nil => rfl
  | cons a l ih =>
    simp only [List.map_cons, ih]
    congr 1
    by_cases ha : (a.id == inp.id) = true
    · rw [if_pos ha]
      have ha' : ((applyColorUpdate inp a).id == inp.id) = true := ha
      rw [if_pos ha', applyColorUpdate_idem]
    · rw [if_neg ha]
      rw [if_neg ha]

/-- C8: partial updates are idempotent modulo timestamps.  Re-running a
successful `updatePalette` with the same input succeeds and leaves every
field except `updatedAt` as after the first run; re-running a successful
`updatePaletteColor` with the same input returns the very same store and
row (colors carry no modification timestamp). -/
theorem c8_partial_update_idempotent :
    (∀ (s : Store) (ctx : Option User) (inp : UpdatePaletteInput)
        (now1 now2 : Nat) (s1 : Store) (r1 : Palette),
      updatePalette s ctx inp now1 = .ok (s1, r1) →
      ∃ s2 r2, updatePalette s1 ctx inp now2 = .ok (s2, r2) ∧
        s2.palettes.map paletteContent = s1.palettes.map paletteContent ∧
        s2.colors = s1.colors ∧
        paletteContent r2 = paletteContent r1) ∧
    (∀ (s : Store) (ctx : Option User) (inp : UpdatePaletteColorInput)
        (s1 : Store) (r1 : PaletteColor),
      updatePaletteColor s ctx inp = .ok (s1, r1) →
      updatePaletteColor s1 ctx inp = .ok (s1, r1)) := by
  constructor
  · intro s ctx inp now1 now2 s1 r1 h
    obtain ⟨hv, u, p0, hctx, hg, hs1, hr1⟩ :=
      updatePalette_ok_elim s ctx inp now1 s1 r1 h
    obtain ⟨hfind, hcheck⟩ := getOwnedPalette_ok_elim s inp.id u.id p0 hg
    have hp0id : (p0.id == inp.id) = true := by
      simpa using List.find?_some hfind
    subst hctx hs1 hr1
    have hpred : ∀ q : Palette,
        ((if q.id == inp.id then applyPaletteUpdate inp now1 q else q).id
          == inp.id) = (q.id == inp.id) := by
      intro q
      by_cases hq : (q.id == inp.id) = true
      · rw [if_pos hq]
        rfl
      · rw [if_neg hq]
    have hfind1 :
        (s.palettes.map fun q =>
            if q.id == inp.id then applyPaletteUpdate inp now1 q else q).find?
          (fun q => q.id == inp.id)
          = some (applyPaletteUpdate inp now1 p0) := by
      rw [find?_map_preserve _ _ _ hpred, hfind, Option.map_some']
      rw [if_pos hp0id]
    have hg1 : getOwnedPalette
        { s with palettes := s.palettes.map fun q =>
            if q.id == inp.id then applyPaletteUpdate inp now1 q else q }
        inp.id u.id = .ok (applyPaletteUpdate inp now1 p0) :=
      getOwnedPalette_ok_intro _ _ _ _ hfind1 hcheck
    have h2 := updatePalette_ok_intro _ u inp now2 _ hv hg1
    refine ⟨_, _, h2, ?_, rfl, ?_⟩
    · exact map_paletteContent_update_twice inp now1 now2 s.palettes
    · show paletteContent
          (applyPaletteUpdate inp now2 (applyPaletteUpdate inp now1 p0))
        = paletteContent (applyPaletteUpdate inp now1 p0)
      rw [applyPaletteUpdate_idem]
      exact paletteContent_apply_time inp now1 now2 p0
  · intro s ctx inp s1 r1 h
    obtain ⟨hv, u, pal, ex, hctx, hg, hfind, hs1, hr1⟩ :=
      updatePaletteColor_ok_elim s ctx inp s1 r1 h
    have hexid : (ex.id == inp.id) = true := by
      have hexp := List.find?_some hfind
      simp only [Bool.and_eq_true] at hexp
      exact hexp.1
    subst hctx hs1 hr1
    have hpred : ∀ c : PaletteColor,
        (((if c.id == inp.id then applyColorUpdate inp c else c).id == inp.id)
          && ((if c.id == inp.id then applyColorUpdate inp c else c).paletteId
            == inp.paletteId))
        = (c.id == inp.id && c.paletteId == inp.paletteId) := by
      intro c
      by_cases hc : (c.id == inp.id) = true
      · rw [if_pos hc]
        rfl
      · rw [if_neg hc]
    have hfind1 :
        (s.colors.map fun c =>
            if c.id == inp.id then applyColorUpdate inp c else c).find?
          (fun c => c.id == inp.id && c.paletteId == inp.paletteId)
          = some (applyColorUpdate inp ex) := by
      rw [find?_map_preserve _ _ _ hpred, hfind, Option.map_some']
      rw [if_pos hexid]
    have hg1 : getOwnedPalette
        { s with colors := s.colors.map fun c =>
            if c.id == inp.id then applyColorUpdate inp c else c }
        inp.paletteId u.id = .ok pal := hg
    have h2 := updatePaletteColor_ok_intro _ u inp pal _ hv hg1 hfind1
    rw [h2, applyColorUpdate_idem]
    dsimp only
    rw [map_colorUpdate_twice]

/-- `favToggledPalette` after re-running the same update at time 13. -/
def favToggledPalette13 : Palette :=
  { id := "p1", userId := "alice", name := "Sunset", description := none
    sourceType := none, sourceReference := none, isFavorite := true
    isSystem := false, createdAt := 0, updatedAt := 13 }

/-- The store after re-running the favorite-toggle update at time 13. -/
def favToggledStore13 : Store :=
  { palettes := [favToggledPalette13, sampleSystemPalette, sampleFavPalette]
    colors := sampleStore.colors }

/-- Witness for C8: the concrete favorite-toggle and recolor calls re-run on
their own results, success hypotheses discharged by evaluation. -/
theorem c8_witness :
    updatePaletteColor recoloredStore (some ⟨"alice"⟩) recolorInput
      = .ok (recoloredStore, recoloredColor) ∧
    favToggledStore13.palettes.map paletteContent
      = favToggledStore.palettes.map paletteContent ∧
    paletteContent favToggledPalette13 = paletteContent favToggledPalette := by
  obtain ⟨s2, r2, heq, hmap, hcols, hcontent⟩ :=
    c8_partial_update_idempotent.1 sampleStore (some ⟨"alice"⟩)
      favToggleInput 9 13 favToggledStore favToggledPalette rfl
  have h3 : (Except.ok (favToggledStore13, favToggledPalette13) :
      Except ErrCode (Store × Palette)) = .ok (s2, r2) :=
    (show updatePalette favToggledStore (some ⟨"alice"⟩) favToggleInput 13
        = .ok (favToggledStore13, favToggledPalette13) from rfl).symm.trans heq
  obtain ⟨hs2, hr2⟩ : favToggledStore13 = s2 ∧ favToggledPalette13 = r2 := by
    simpa using h3
  subst hs2 hr2
  exact ⟨c8_partial_update_idempotent.2 sampleStore (some ⟨"alice"⟩)
    recolorInput recoloredStore recoloredColor rfl, hmap, hcontent⟩
